import Mathlib

/-!
Verification development for the merfish ingestion script
(`src/merfish/to_zarr.py`): a shallow embedding of the data model and
pipeline that assembles per-cell tables, a raster image, single-molecule
points and anatomical polygons into one spatial dataset and persists it.

Machine floats of the script are modelled as exact rationals (`ℚ`);
python dicts / pandas columns as association lists keyed by `String`.
-/

set_option autoImplicit false

namespace Merfish

/-! ### Association-list primitives (python dict / pandas column access) -/

/-- Key lookup in an association list (python `d[k]`, returning `none`
for a missing key instead of raising `KeyError`). -/
def assocLookup {α : Type} (l : List (String × α)) (k : String) : Option α :=
  match l with
  | [] => none
  | kv :: rest => if kv.1 = k then some kv.2 else assocLookup rest k

/-- Key removal (python `del d[k]`); on the unique-key dicts of the script
this removes exactly the entry with key `k`. -/
def eraseKey {α : Type} (l : List (String × α)) (k : String) : List (String × α) :=
  match l with
  | [] => []
  | kv :: rest => if kv.1 = k then eraseKey rest k else kv :: eraseKey rest k

/-- Key assignment (python `d[k] = v`): replaces the entry in place when the
key is present, appends it otherwise. -/
def assocSet {α : Type} (l : List (String × α)) (k : String) (v : α) : List (String × α) :=
  match l with
  | [] => [(k, v)]
  | kv :: rest => if kv.1 = k then (k, v) :: rest else kv :: assocSet rest k v

theorem assocLookup_eraseKey_self {α : Type} (l : List (String × α)) (k : String) :
    assocLookup (eraseKey l k) k = none := by
  induction l with
  | nil => rfl
  | cons kv rest ih =>
      by_cases h : kv.1 = k
      · simpa [eraseKey, h] using ih
      · simpa [eraseKey, assocLookup, h] using ih

theorem assocLookup_eraseKey_ne {α : Type} (l : List (String × α)) (k k' : String)
    (h : k' ≠ k) : assocLookup (eraseKey l k) k' = assocLookup l k' := by
  induction l with
  | nil => rfl
  | cons kv rest ih =>
      by_cases hk : kv.1 = k
      · have hne : ¬k = k' := Ne.symm h
        simpa [eraseKey, assocLookup, hk, hne] using ih
      · by_cases hk' : kv.1 = k'
        · simp [eraseKey, assocLookup, hk, hk', h]
        · simpa [eraseKey, assocLookup, hk, hk'] using ih

theorem assocLookup_assocSet_self {α : Type} (l : List (String × α)) (k : String) (v : α) :
    assocLookup (assocSet l k v) k = some v := by
  induction l with
  | nil => simp [assocSet, assocLookup]
  | cons kv rest ih =>
      by_cases h : kv.1 = k
      · simp [assocSet, assocLookup, h]
      · simpa [assocSet, assocLookup, h] using ih

theorem assocLookup_assocSet_ne {α : Type} (l : List (String × α)) (k k' : String) (v : α)
    (h : k' ≠ k) : assocLookup (assocSet l k v) k' = assocLookup l k' := by
  induction l with
  | nil => simp [assocSet, assocLookup, Ne.symm h]
  | cons kv rest ih =>
      by_cases hk : kv.1 = k
      · have hne : ¬k = k' := Ne.symm h
        simp [assocSet, assocLookup, hk, hne]
      · by_cases hk' : kv.1 = k'
        · simp [assocSet, assocLookup, hk, hk', h]
        · simpa [assocSet, assocLookup, hk, hk'] using ih

/-! ### Coordinate transforms

Modelled from the spec: the classes `sd.Translation`, `sd.Scale`, the
function `sd.compose_transformations` and the method `.to_affine()` live in
the external `spatialdata` package, not in this repository's sources; they
are embedded here following §4.1 of the spec.  The affine form is kept as a
per-axis (diagonal) linear part plus offset, which is the canonical
matrix+offset pair for every transform this pipeline builds. -/

/-- A coordinate transform: translation / scale vectors, a canonical
affine (diagonal linear part `a` and offset `b`, mapping `x ↦ a*x + b`
per axis), or a composition (first `f`, then `g`). -/
inductive Transform : Type where
  | translation (t : List ℚ)
  | scale (s : List ℚ)
  | affine (a : List ℚ) (b : List ℚ)
  | composed (f : Transform) (g : Transform)
  deriving DecidableEq

/-- The function `sd.compose_transformations a b`: the transform applying `a` then `b`. -/
def compose_transformations (a b : Transform) : Transform :=
  Transform.composed a b

/-- Apply a transform to a coordinate, axis by axis. -/
def Transform.apply : Transform → List ℚ → List ℚ
  | .translation t, x => List.zipWith (· + ·) x t
  | .scale s, x => List.zipWith (· * ·) x s
  | .affine a b, x => List.zipWith (· + ·) (List.zipWith (· * ·) x a) b
  | .composed f g, x => g.apply (f.apply x)

/-- Canonical affine parameters (diagonal, offset) of a transform. -/
def toAffineParams : Transform → List ℚ × List ℚ
  | .translation t => (List.replicate t.length 1, t)
  | .scale s => (s, List.replicate s.length 0)
  | .affine a b => (a, b)
  | .composed f g =>
      let p := toAffineParams f
      let q := toAffineParams g
      (List.zipWith (· * ·) q.1 p.1,
       List.zipWith (· + ·) (List.zipWith (· * ·) q.1 p.2) q.2)

/-- The method `.to_affine()`: reduce any transform to its canonical affine form. -/
def Transform.to_affine (tr : Transform) : Transform :=
  Transform.affine (toAffineParams tr).1 (toAffineParams tr).2

/-! ### The script's transform assembly (`to_zarr.py` lines 30-62) -/

/-- The alignment record `image_transform.json`: exactly four scalars. -/
structure AlignRecord : Type where
  translation_x : ℚ
  translation_y : ℚ
  scale_factor_x : ℚ
  scale_factor_y : ℚ
  deriving DecidableEq

/-- Line 30: `image_translation = np.array([j["translation_x"], j["translation_y"]])`. -/
def image_translation (j : AlignRecord) : List ℚ :=
  [j.translation_x, j.translation_y]

/-- Line 31: `image_scale_factors = np.array([j["scale_factor_x"], j["scale_factor_y"]])`. -/
def image_scale_factors (j : AlignRecord) : List ℚ :=
  [j.scale_factor_x, j.scale_factor_y]

/-- Line 62: `composed = sd.compose_transformations(scale, translation).to_affine()`. -/
def composed (j : AlignRecord) : Transform :=
  (compose_transformations (Transform.scale (image_scale_factors j))
      (Transform.translation (image_translation j))).to_affine

theorem zip_affine_eq (x s t : List ℚ)
    (h1 : x.length = s.length) (h2 : s.length = t.length) :
    List.zipWith (· + ·)
        (List.zipWith (· * ·) x (List.zipWith (· * ·) (List.replicate t.length 1) s))
        (List.zipWith (· + ·)
          (List.zipWith (· * ·) (List.replicate t.length 1) (List.replicate s.length 0)) t)
      = List.zipWith (· + ·) (List.zipWith (· * ·) x s) t := by
  induction x generalizing s t with
  | nil =>
      have hs : s = [] := List.length_eq_zero.mp (by simpa using h1.symm)
      have ht : t = [] := List.length_eq_zero.mp (by simp [hs] at h2; exact h2.symm)
      subst hs; subst ht; rfl
  | cons xh xt ih =>
      match s, t with
      | [], _ => simp at h1
      | sh :: st, [] => simp at h2
      | sh :: st, th :: tt =>
          have h1' : xt.length = st.length := by simpa using h1
          have h2' : st.length = tt.length := by simpa using h2
          have htl := ih st tt h1' h2'
          simp only [List.length_cons, List.replicate, List.zipWith]
          refine List.cons_eq_cons.mpr ⟨by ring, htl⟩

theorem scale_then_translate_affine (s t x : List ℚ)
    (h1 : x.length = s.length) (h2 : s.length = t.length) :
    Transform.apply
        ((compose_transformations (Transform.scale s) (Transform.translation t)).to_affine) x
      = List.zipWith (· + ·) (List.zipWith (· * ·) x s) t := by
  simp only [compose_transformations, Transform.to_affine, toAffineParams, Transform.apply]
  exact zip_affine_eq x s t h1 h2

/-- C1: composing `make_scale(s)` with `make_translation(t)` and reducing
via `to_affine` maps every coordinate `x` to `x * s + t` elementwise, and
the script's `composed` transform built from the alignment record
`{translation_x: 5, translation_y: -3, scale_factor_x: 2, scale_factor_y: 2}`
maps pixel `(0,0)` to `(5,-3)` and pixel `(1,1)` to `(7,-1)`. -/
theorem transform_compose_affine_correct :
    (∀ s t x : List ℚ, x.length = s.length → s.length = t.length →
        Transform.apply
            ((compose_transformations (Transform.scale s) (Transform.translation t)).to_affine) x
          = List.zipWith (· + ·) (List.zipWith (· * ·) x s) t) ∧
    Transform.apply (composed ⟨5, -3, 2, 2⟩) [0, 0] = [5, -3] ∧
    Transform.apply (composed ⟨5, -3, 2, 2⟩) [1, 1] = [7, -1] :=
  ⟨scale_then_translate_affine,
   by norm_num [composed, compose_transformations, Transform.to_affine, toAffineParams,
     Transform.apply, image_translation, image_scale_factors, List.replicate],
   by norm_num [composed, compose_transformations, Transform.to_affine, toAffineParams,
     Transform.apply, image_translation, image_scale_factors, List.replicate]⟩

/-- C1 witness: the general clause instantiated at `s = [2,2]`, `t = [5,-3]`,
`x = [3,4]`, with the length hypotheses discharged concretely. -/
theorem transform_compose_affine_correct_witness :
    Transform.apply
        ((compose_transformations (Transform.scale [2, 2])
            (Transform.translation [5, -3])).to_affine) [3, 4]
      = List.zipWith (· + ·) (List.zipWith (· * ·) [3, 4] [2, 2]) [5, -3] :=
  transform_compose_affine_correct.1 [2, 2] [5, -3] [3, 4] (by decide) (by decide)

/-! ### AnnData-style tables -/

/-- A value stored in an `obsm` slot: a numeric per-row array or a
categorical per-row array. -/
inductive ObsmVal : Type where
  | nums (a : List (List ℚ))
  | cats (a : List String)
  deriving DecidableEq

/-- Number of rows of an `obsm` value (its first dimension). -/
def ObsmVal.len : ObsmVal → Nat
  | .nums a => a.length
  | .cats a => a.length

/-- A column of `obs`: string-valued or integer-valued. -/
inductive ObsCol : Type where
  | strs (a : List String)
  | nats (a : List Nat)
  deriving DecidableEq

/-- Number of rows of an `obs` column. -/
def ObsCol.len : ObsCol → Nat
  | .strs a => a.length
  | .nats a => a.length

/-- The `uns['mapping_info']` record binding the table to its region layer. -/
structure MappingInfo : Type where
  regions : String
  regions_key : String
  instance_key : String
  deriving DecidableEq

/-- An AnnData object: feature matrix `X` (one row per observation,
`n_vars` columns), `obsm` arrays, `obs` columns, and the optional
`uns['mapping_info']` record.  `len(adata)` is `X.length`.
`ad.AnnData(shape=(n, 0))` is the object with `X = List.replicate n []`
and `n_vars = 0`. -/
structure AnnDataObj : Type where
  n_vars : Nat
  X : List (List ℚ)
  obsm : List (String × ObsmVal)
  obs : List (String × ObsCol)
  uns_mapping_info : Option MappingInfo
  deriving DecidableEq

instance : Inhabited AnnDataObj := ⟨⟨0, [], [], [], none⟩⟩

/-- AnnData's dimension validation: every `obsm` array has one row per
observation (AnnData raises on assignment otherwise, so any object read
from disk or built by the script satisfies this). -/
def AnnDataObj.obsmAligned (a : AnnDataObj) : Prop :=
  ∀ kv ∈ a.obsm, (kv.2).len = a.X.length

/-! ### Layer construction (`to_zarr.py` lines 25-44) -/

/-- Lines 26-28: `single_molecule = ad.AnnData(shape=(len(adata), 0))`;
`single_molecule.obsm['spatial'] = adata.X`;
`single_molecule.obsm['spatial_type'] = adata.obsm['cell_type']`. -/
def mkSingleMolecule (adata : AnnDataObj) (cellType : ObsmVal) : AnnDataObj :=
  { n_vars := 0
    X := List.replicate adata.X.length []
    obsm := [("spatial", ObsmVal.nums adata.X), ("spatial_type", cellType)]
    obs := []
    uns_mapping_info := none }

/-- Python `del o.obsm[k]` as an object update. -/
def delObsmMut (k : String) (o : AnnDataObj) : AnnDataObj :=
  { o with obsm := eraseKey o.obsm k }

/-- Python `o.uns['mapping_info'] = mi` as an object update. -/
def setUnsMut (mi : MappingInfo) (o : AnnDataObj) : AnnDataObj :=
  { o with uns_mapping_info := some mi }

/-- Python `o.obs['regions_id'] = 'cells'` (scalar broadcast over the rows). -/
def setObsRegionsIdMut (o : AnnDataObj) : AnnDataObj :=
  { o with obs := assocSet o.obs "regions_id" (ObsCol.strs (List.replicate o.X.length "cells")) }

/-- Python `o.obs['cell_id'] = np.arange(len(o))`. -/
def setObsCellIdMut (o : AnnDataObj) : AnnDataObj :=
  { o with obs := assocSet o.obs "cell_id" (ObsCol.nats (List.range o.X.length)) }

/-- Lines 34-39: `expression = cells.copy()`; delete the
`region_radius` and `spatial` obsm slots; attach `mapping_info`; assign
`obs['regions_id'] = 'cells'` (broadcast) and
`obs['cell_id'] = np.arange(len(expression))`. -/
def mkExpression (cells : AnnDataObj) : AnnDataObj :=
  setObsCellIdMut (setObsRegionsIdMut (setUnsMut ⟨"cells", "regions_id", "cell_id"⟩
    (delObsmMut "spatial" (delObsmMut "region_radius" cells))))

/-- Lines 41-44: `regions = ad.AnnData(shape=(len(cells.obsm['spatial']), 0))`;
copy over the `region_radius` and `spatial` obsm slots from `cells`;
assign `obs['cell_id'] = np.arange(len(regions))`. -/
def mkRegions (sp rr : ObsmVal) : AnnDataObj :=
  { n_vars := 0
    X := List.replicate sp.len []
    obsm := [("region_radius", rr), ("spatial", sp)]
    obs := [("cell_id", ObsCol.nats (List.range sp.len))]
    uns_mapping_info := none }

/-! ### Polygon parsing (`to_zarr.py` line 47)

Modelled from the spec: `Polygons.anndata_from_geojson` lives in the
external `spatialdata._core` package, not in this repository's sources;
§4.2 of the spec specifies that it preserves each polygon's name and ring
coordinates verbatim and fails with a `ParseError` on any feature whose
type tag is not `"Polygon"` or whose ring count is not exactly one. -/

/-- Error taxonomy of the spec (§7). -/
inductive Err : Type where
  | validationError
  | parseError
  | consistencyError
  | ioError
  deriving DecidableEq

/-- One feature of the geometry-interchange document: a type tag, a name,
and a list of coordinate rings. -/
structure GeoFeature : Type where
  typeTag : String
  name : String
  rings : List (List (ℚ × ℚ))
  deriving DecidableEq

/-- Parse one feature: accepts exactly a `"Polygon"` with one ring. -/
def parseFeature (f : GeoFeature) : Except Err (String × List (ℚ × ℚ)) :=
  if f.typeTag = "Polygon" then
    match f.rings with
    | [r] => .ok (f.name, r)
    | _ => .error Err.parseError
  else .error Err.parseError

/-- Parse a whole geometry document, stopping at the first bad feature. -/
def anndata_from_geojson : List GeoFeature → Except Err (List (String × List (ℚ × ℚ)))
  | [] => .ok []
  | f :: fs =>
      match parseFeature f with
      | .error e => .error e
      | .ok p =>
          match anndata_from_geojson fs with
          | .error e => .error e
          | .ok ps => .ok (p :: ps)

/-! ### Spatial dataset assembly (`to_zarr.py` lines 64-70)

Modelled from the spec: the `sd.SpatialData` constructor lives in the
external `spatialdata` package; §4.3 and §4.2 of the spec specify its
validation: the table's `mapping_info.regions` must name an existing
points layer of the same row count (`ConsistencyError` otherwise, never
silently truncating or padding), and every image transform must name an
existing image (`ValidationError` otherwise). -/

/-- The assembled in-memory aggregate. -/
structure SpatialDataset : Type where
  table : AnnDataObj
  points : List (String × AnnDataObj)
  images : List (String × List (List ℚ))
  images_transform : List (String × Transform)
  polygons : List (String × List (String × List (ℚ × ℚ)))
  deriving DecidableEq

/-- The constructor `sd.SpatialData(...)`: validate and build the aggregate. -/
def mkSpatialData (table : AnnDataObj) (points : List (String × AnnDataObj))
    (images : List (String × List (List ℚ)))
    (images_transform : List (String × Transform))
    (polygons : List (String × List (String × List (ℚ × ℚ)))) :
    Except Err SpatialDataset :=
  match table.uns_mapping_info with
  | none => .error Err.consistencyError
  | some mi =>
      match assocLookup points mi.regions with
      | none => .error Err.consistencyError
      | some region =>
          if table.X.length = region.X.length then
            if images_transform.all (fun kv => (assocLookup images kv.1).isSome) then
              .ok ⟨table, points, images, images_transform, polygons⟩
            else .error Err.validationError
          else .error Err.consistencyError

/-- The whole assembly pipeline of the script (lines 25-70), from the
already-parsed inputs to the in-memory dataset: build the
`single_molecule`, `expression` and `regions` layers, parse the polygon
document, compose the image transform, and construct the aggregate.
A required obsm key missing from an input aborts the script (python
`KeyError`), modelled as `ValidationError`. -/
def buildDataset (cells adata : AnnDataObj) (img : List (List ℚ))
    (j : AlignRecord) (geo : List GeoFeature) : Except Err SpatialDataset :=
  match assocLookup adata.obsm "cell_type" with
  | none => .error Err.validationError
  | some cellType =>
      match assocLookup cells.obsm "spatial", assocLookup cells.obsm "region_radius" with
      | some sp, some rr =>
          let single_molecule := mkSingleMolecule adata cellType
          let expression := mkExpression cells
          let regions := mkRegions sp rr
          match anndata_from_geojson geo with
          | .error e => .error e
          | .ok polys =>
              mkSpatialData expression
                [("cells", regions), ("single_molecule", single_molecule)]
                [("rasterized", img)]
                [("rasterized", composed j)]
                [("anatomical", polys)]
      | _, _ => .error Err.validationError

/-! ### Store writer (`to_zarr.py` lines 74-76)

Modelled from the spec: `sdata.write` persists through the external
`spatialdata` zarr backend; §4.4 of the spec specifies that each layer
kind goes to its own named subtree and each image's canonical affine
parameters are stored as sidecar metadata.  The script's own
delete-then-write logic (lines 74-76) is embedded directly. -/

/-- The on-disk store: one subtree per layer kind; image transforms are
recorded only as canonical affine parameters. -/
structure Store : Type where
  table : AnnDataObj
  points : List (String × AnnDataObj)
  images : List (String × List (List ℚ))
  image_transforms : List (String × (List ℚ × List ℚ))
  polygons : List (String × List (String × List (ℚ × ℚ)))
  deriving DecidableEq

/-- Serialize a dataset: transforms are reduced to affine parameters. -/
def writeStore (D : SpatialDataset) : Store :=
  { table := D.table
    points := D.points
    images := D.images
    image_transforms := D.images_transform.map (fun kv => (kv.1, toAffineParams kv.2))
    polygons := D.polygons }

/-- Reopen a store: transforms come back as the recorded affine maps. -/
def readStore (s : Store) : SpatialDataset :=
  { table := s.table
    points := s.points
    images := s.images
    images_transform :=
      s.image_transforms.map (fun kv => (kv.1, Transform.affine kv.2.1 kv.2.2))
    polygons := s.polygons }

/-- A filesystem fragment: stores keyed by destination path. -/
def FS : Type := List (String × Store)

/-- Line 74: `path_write.exists()`. -/
def fsExists (fs : FS) (p : String) : Bool :=
  (assocLookup fs p).isSome

/-- Line 75: `shutil.rmtree(path_write)`: recursively delete the store at `p`. -/
def rmtree (fs : FS) (p : String) : FS :=
  eraseKey fs p

/-- Lines 74-75: `if path_write.exists(): shutil.rmtree(path_write)`. -/
def deletePhase (fs : FS) (p : String) : FS :=
  if fsExists fs p then rmtree fs p else fs

/-- Line 76: `sdata.write(path_write)` — create the store at `p`. -/
def writePhase (fs : FS) (p : String) (D : SpatialDataset) : FS :=
  (p, writeStore D) :: fs

/-- The script's full write step: delete any pre-existing store, then write. -/
def scriptWrite (fs : FS) (p : String) (D : SpatialDataset) : FS :=
  writePhase (deletePhase fs p) p D

/-- Layer names recorded in a store (points, images, polygons subtrees). -/
def storeLayerNames (s : Store) : List String :=
  s.points.map Prod.fst ++ s.images.map Prod.fst ++ s.polygons.map Prod.fst

/-- Layer names of an in-memory dataset. -/
def datasetLayerNames (D : SpatialDataset) : List String :=
  D.points.map Prod.fst ++ D.images.map Prod.fst ++ D.polygons.map Prod.fst

/-! ### Shared sample inputs (the spec's §8 concrete scenario) -/

/-- A 3-cell annotation table: radii `[1, 2, 3/2]`, coordinates
`[(0,0), (1,1), (2,2)]`, one feature column. -/
def sampleCells : AnnDataObj :=
  { n_vars := 1
    X := [[10], [20], [30]]
    obsm := [("spatial", ObsmVal.nums [[0, 0], [1, 1], [2, 2]]),
             ("region_radius", ObsmVal.nums [[1], [2], [3/2]])]
    obs := []
    uns_mapping_info := none }

/-- A 2-molecule raw single-molecule table. -/
def sampleAdata : AnnDataObj :=
  { n_vars := 2
    X := [[0, 0], [5, 5]]
    obsm := [("cell_type", ObsmVal.cats ["A", "B"])]
    obs := []
    uns_mapping_info := none }

/-- The §8 alignment record. -/
def sampleAlign : AlignRecord := ⟨5, -3, 2, 2⟩

/-- A one-feature geometry document holding a single valid polygon. -/
def sampleGeo : List GeoFeature :=
  [⟨"Polygon", "roi", [[(0, 0), (1, 0), (1, 1)]]⟩]

/-- A 2x2 raster image. -/
def sampleImg : List (List ℚ) := [[1, 2], [3, 4]]

theorem mkExpression_X (cells : AnnDataObj) : (mkExpression cells).X = cells.X := rfl

theorem mkExpression_obs_cell_id (cells : AnnDataObj) :
    assocLookup (mkExpression cells).obs "cell_id"
      = some (ObsCol.nats (List.range cells.X.length)) := by
  simp only [mkExpression, setObsCellIdMut]
  exact assocLookup_assocSet_self _ _ _

/-- C8: the single-molecule Points layer has zero feature columns, stores
the input coordinates under the `spatial` role and the categorical labels
under the `spatial_type` role, both aligned with the same row index and
with row count equal to the input table's row count. -/
theorem single_molecule_layer_correct (adata : AnnDataObj) (ct : ObsmVal)
    (hct : assocLookup adata.obsm "cell_type" = some ct)
    (hlen : ct.len = adata.X.length) :
    (mkSingleMolecule adata ct).n_vars = 0 ∧
    assocLookup (mkSingleMolecule adata ct).obsm "spatial"
      = some (ObsmVal.nums adata.X) ∧
    assocLookup (mkSingleMolecule adata ct).obsm "spatial_type" = some ct ∧
    (ObsmVal.nums adata.X).len = adata.X.length ∧
    ct.len = adata.X.length ∧
    (mkSingleMolecule adata ct).X.length = adata.X.length := by
  refine ⟨rfl, ?_, ?_, rfl, hlen, by simp [mkSingleMolecule]⟩
  · simp [mkSingleMolecule, assocLookup]
  · simp [mkSingleMolecule, assocLookup]

/-- C8 witness: the sample single-molecule table. -/
theorem single_molecule_layer_correct_witness :
    (mkSingleMolecule sampleAdata (ObsmVal.cats ["A", "B"])).n_vars = 0 ∧
    assocLookup (mkSingleMolecule sampleAdata (ObsmVal.cats ["A", "B"])).obsm "spatial"
      = some (ObsmVal.nums sampleAdata.X) ∧
    assocLookup (mkSingleMolecule sampleAdata (ObsmVal.cats ["A", "B"])).obsm "spatial_type"
      = some (ObsmVal.cats ["A", "B"]) ∧
    (ObsmVal.nums sampleAdata.X).len = sampleAdata.X.length ∧
    (ObsmVal.cats ["A", "B"]).len = sampleAdata.X.length ∧
    (mkSingleMolecule sampleAdata (ObsmVal.cats ["A", "B"])).X.length
      = sampleAdata.X.length :=
  single_molecule_layer_correct sampleAdata (ObsmVal.cats ["A", "B"]) rfl rfl

/-- C5: the Table drops exactly the spatial obsm slots (keeping every other
column and the feature matrix) and carries the region/instance metadata,
while the `cells` Points layer holds exactly the removed spatial columns
plus a fresh dense `cell_id` matching the Table 1:1. -/
theorem table_points_split_correct (cells : AnnDataObj) (sp rr : ObsmVal)
    (hsp : assocLookup cells.obsm "spatial" = some sp)
    (hrr : assocLookup cells.obsm "region_radius" = some rr)
    (hlen : sp.len = cells.X.length) :
    assocLookup (mkExpression cells).obsm "spatial" = none ∧
    assocLookup (mkExpression cells).obsm "region_radius" = none ∧
    (∀ k, k ≠ "spatial" → k ≠ "region_radius" →
        assocLookup (mkExpression cells).obsm k = assocLookup cells.obsm k) ∧
    (mkExpression cells).X = cells.X ∧
    (mkExpression cells).uns_mapping_info = some ⟨"cells", "regions_id", "cell_id"⟩ ∧
    (mkRegions sp rr).obsm = [("region_radius", rr), ("spatial", sp)] ∧
    (mkRegions sp rr).n_vars = 0 ∧
    assocLookup (mkRegions sp rr).obs "cell_id"
      = some (ObsCol.nats (List.range cells.X.length)) ∧
    (mkRegions sp rr).X.length = cells.X.length := by
  refine ⟨?_, ?_, ?_, rfl, rfl, rfl, rfl, ?_, ?_⟩
  · show assocLookup (eraseKey (eraseKey cells.obsm "region_radius") "spatial") "spatial" = none
    exact assocLookup_eraseKey_self _ _
  · show assocLookup (eraseKey (eraseKey cells.obsm "region_radius") "spatial") "region_radius"
      = none
    rw [assocLookup_eraseKey_ne _ _ _ (by decide)]
    exact assocLookup_eraseKey_self _ _
  · intro k hk1 hk2
    show assocLookup (eraseKey (eraseKey cells.obsm "region_radius") "spatial") k
      = assocLookup cells.obsm k
    rw [assocLookup_eraseKey_ne _ _ _ hk1, assocLookup_eraseKey_ne _ _ _ hk2]
  · simp [mkRegions, assocLookup, hlen]
  · simp [mkRegions, hlen]

/-- C5 witness: the sample 3-cell table. -/
theorem table_points_split_correct_witness :
    assocLookup (mkExpression sampleCells).obsm "spatial" = none ∧
    assocLookup (mkExpression sampleCells).obsm "region_radius" = none ∧
    (∀ k, k ≠ "spatial" → k ≠ "region_radius" →
        assocLookup (mkExpression sampleCells).obsm k = assocLookup sampleCells.obsm k) ∧
    (mkExpression sampleCells).X = sampleCells.X ∧
    (mkExpression sampleCells).uns_mapping_info
      = some ⟨"cells", "regions_id", "cell_id"⟩ ∧
    (mkRegions (ObsmVal.nums [[0, 0], [1, 1], [2, 2]])
        (ObsmVal.nums [[1], [2], [3/2]])).obsm
      = [("region_radius", ObsmVal.nums [[1], [2], [3/2]]),
         ("spatial", ObsmVal.nums [[0, 0], [1, 1], [2, 2]])] ∧
    (mkRegions (ObsmVal.nums [[0, 0], [1, 1], [2, 2]])
        (ObsmVal.nums [[1], [2], [3/2]])).n_vars = 0 ∧
    assocLookup (mkRegions (ObsmVal.nums [[0, 0], [1, 1], [2, 2]])
        (ObsmVal.nums [[1], [2], [3/2]])).obs "cell_id"
      = some (ObsCol.nats (List.range sampleCells.X.length)) ∧
    (mkRegions (ObsmVal.nums [[0, 0], [1, 1], [2, 2]])
        (ObsmVal.nums [[1], [2], [3/2]])).X.length = sampleCells.X.length :=
  table_points_split_correct sampleCells _ _ rfl rfl rfl

/-- C9: both the `cells` Points layer and the Table carry a `cell_id`
column equal to the dense sequence `range n`, so at every row index the
two sides of the join key agree and equal the index itself. -/
theorem cell_id_dense_both_sides (cells : AnnDataObj) (sp rr : ObsmVal)
    (hsp : assocLookup cells.obsm "spatial" = some sp)
    (hlen : sp.len = cells.X.length) :
    assocLookup (mkRegions sp rr).obs "cell_id"
      = some (ObsCol.nats (List.range sp.len)) ∧
    assocLookup (mkExpression cells).obs "cell_id"
      = some (ObsCol.nats (List.range sp.len)) ∧
    (∀ i, i < sp.len → (List.range sp.len).getD i 0 = i) := by
  refine ⟨by simp [mkRegions, assocLookup], ?_, ?_⟩
  · rw [mkExpression_obs_cell_id, hlen]
  · intro i hi
    simp [List.getD, List.getElem?_range hi]

/-- C9 witness: the sample 3-cell table. -/
theorem cell_id_dense_both_sides_witness :
    assocLookup (mkRegions (ObsmVal.nums [[0, 0], [1, 1], [2, 2]])
        (ObsmVal.nums [[1], [2], [3/2]])).obs "cell_id"
      = some (ObsCol.nats (List.range 3)) ∧
    assocLookup (mkExpression sampleCells).obs "cell_id"
      = some (ObsCol.nats (List.range 3)) ∧
    (∀ i, i < 3 → (List.range 3).getD i 0 = i) :=
  cell_id_dense_both_sides sampleCells _ (ObsmVal.nums [[1], [2], [3/2]]) rfl rfl

/-- C4: the write step first deletes any pre-existing store at the
destination in full (the intermediate state holds no store there), then
writes; afterwards the destination holds exactly the new dataset's store,
whose layer names are the new dataset's — independent of whatever store
was there before (no merge or incremental update). -/
theorem destructive_overwrite (fs : FS) (p : String) (D : SpatialDataset) :
    assocLookup (deletePhase fs p) p = none ∧
    assocLookup (scriptWrite fs p D) p = some (writeStore D) ∧
    (∀ s, assocLookup (scriptWrite fs p D) p = some s →
        storeLayerNames s = datasetLayerNames D) ∧
    assocLookup (scriptWrite fs p D) p = assocLookup (scriptWrite [] p D) p := by
  refine ⟨?_, ?_, ?_, ?_⟩
  · by_cases h : fsExists fs p
    · simp only [deletePhase, h, if_pos]
      exact assocLookup_eraseKey_self fs p
    · simp only [deletePhase, h, if_neg, Bool.not_eq_true]
      simp only [fsExists, Option.isSome] at h
      rcases hl : assocLookup fs p with _ | v
      · rfl
      · rw [hl] at h; simp at h
  · simp [scriptWrite, writePhase, assocLookup]
  · intro s hs
    have : s = writeStore D := by
      simpa [scriptWrite, writePhase, assocLookup] using hs.symm
    subst this
    rfl
  · simp [scriptWrite, writePhase, assocLookup]

/-- C4 witness: the delete-then-write step over a filesystem already
holding a store at the destination. -/
theorem destructive_overwrite_witness :
    assocLookup
        (deletePhase [("data.zarr", writeStore ⟨default, [], [], [], []⟩)] "data.zarr")
        "data.zarr" = none ∧
    assocLookup
        (scriptWrite [("data.zarr", writeStore ⟨default, [], [], [], []⟩)] "data.zarr"
          ⟨sampleCells, [], [("rasterized", sampleImg)], [], []⟩)
        "data.zarr"
      = some (writeStore ⟨sampleCells, [], [("rasterized", sampleImg)], [], []⟩) ∧
    (∀ s, assocLookup
        (scriptWrite [("data.zarr", writeStore ⟨default, [], [], [], []⟩)] "data.zarr"
          ⟨sampleCells, [], [("rasterized", sampleImg)], [], []⟩)
        "data.zarr" = some s →
        storeLayerNames s
          = datasetLayerNames ⟨sampleCells, [], [("rasterized", sampleImg)], [], []⟩) ∧
    assocLookup
        (scriptWrite [("data.zarr", writeStore ⟨default, [], [], [], []⟩)] "data.zarr"
          ⟨sampleCells, [], [("rasterized", sampleImg)], [], []⟩)
        "data.zarr"
      = assocLookup
          (scriptWrite [] "data.zarr" ⟨sampleCells, [], [("rasterized", sampleImg)], [], []⟩)
          "data.zarr" :=
  destructive_overwrite [("data.zarr", writeStore ⟨default, [], [], [], []⟩)] "data.zarr"
    ⟨sampleCells, [], [("rasterized", sampleImg)], [], []⟩

/-- C3: after the script's write step, reading the store back from the
destination yields a dataset with the same layer names, the same row and
pixel counts per layer, and affine transform parameters equal to
`to_affine` of the original transforms (exact, hence within tolerance). -/
theorem write_read_roundtrip (fs : FS) (p : String) (D : SpatialDataset) :
    ∃ s, assocLookup (scriptWrite fs p D) p = some s ∧
      datasetLayerNames (readStore s) = datasetLayerNames D ∧
      (readStore s).table.X.length = D.table.X.length ∧
      (readStore s).points.map (fun kv => (kv.1, kv.2.X.length))
        = D.points.map (fun kv => (kv.1, kv.2.X.length)) ∧
      (readStore s).images = D.images ∧
      (readStore s).polygons = D.polygons ∧
      (readStore s).images_transform
        = D.images_transform.map (fun kv => (kv.1, (kv.2).to_affine)) := by
  refine ⟨writeStore D, ?_, rfl, rfl, rfl, rfl, rfl, ?_⟩
  · simp [scriptWrite, writePhase, assocLookup]
  · simp [readStore, writeStore, Transform.to_affine, List.map_map, Function.comp]

theorem parseFeature_error_eq (f : GeoFeature) (e : Err)
    (h : parseFeature f = .error e) : e = Err.parseError := by
  obtain ⟨tt, nm, rings⟩ := f
  unfold parseFeature at h
  by_cases ht : tt = "Polygon"
  · simp only [ht, if_pos] at h
    rcases rings with _ | ⟨r, _ | ⟨r', rest⟩⟩ <;> simp_all
  · simp only [ht, if_neg, if_false] at h
    simp at h
    exact h.symm

theorem parseFeature_bad (f : GeoFeature)
    (hbad : f.typeTag ≠ "Polygon" ∨ f.rings.length ≠ 1) :
    parseFeature f = .error Err.parseError := by
  obtain ⟨tt, nm, rings⟩ := f
  unfold parseFeature
  by_cases ht : tt = "Polygon"
  · simp only at hbad
    rcases hbad with hb | hb
    · exact absurd ht hb
    · simp only [ht, if_pos]
      rcases rings with _ | ⟨r, _ | ⟨r', rest⟩⟩ <;> simp_all
  · simp [ht]

theorem anndata_from_geojson_bad (geo : List GeoFeature) (f : GeoFeature)
    (hf : f ∈ geo) (hbad : f.typeTag ≠ "Polygon" ∨ f.rings.length ≠ 1) :
    anndata_from_geojson geo = .error Err.parseError := by
  induction geo with
  | nil => simp at hf
  | cons g rest ih =>
      rcases List.mem_cons.mp hf with hg | hg
      · subst hg
        rw [anndata_from_geojson, parseFeature_bad f hbad]
      · rw [anndata_from_geojson]
        rcases hp : parseFeature g with e | p
        · rw [parseFeature_error_eq g e hp]
        · rw [ih hg]

/-- C6: a geometry document containing a feature whose type tag is not
`"Polygon"`, or whose ring count is not exactly one, makes the polygon
parse fail with `ParseError`; assembly aborts and produces no dataset. -/
theorem polygon_parse_strictness (cells adata : AnnDataObj) (img : List (List ℚ))
    (j : AlignRecord) (geo : List GeoFeature) (f : GeoFeature)
    (hf : f ∈ geo) (hbad : f.typeTag ≠ "Polygon" ∨ f.rings.length ≠ 1)
    (ct : ObsmVal) (hct : assocLookup adata.obsm "cell_type" = some ct)
    (sp : ObsmVal) (hsp : assocLookup cells.obsm "spatial" = some sp)
    (rr : ObsmVal) (hrr : assocLookup cells.obsm "region_radius" = some rr) :
    anndata_from_geojson geo = .error Err.parseError ∧
    buildDataset cells adata img j geo = .error Err.parseError := by
  have hgeo := anndata_from_geojson_bad geo f hf hbad
  refine ⟨hgeo, ?_⟩
  unfold buildDataset
  rw [hct, hsp, hrr, hgeo]

/-- C6 witness: a document whose single feature is tagged
`"LineString"`, against the sample inputs. -/
theorem polygon_parse_strictness_witness :
    anndata_from_geojson [⟨"LineString", "roi", [[(0, 0), (1, 0)]]⟩]
      = .error Err.parseError ∧
    buildDataset sampleCells sampleAdata sampleImg sampleAlign
        [⟨"LineString", "roi", [[(0, 0), (1, 0)]]⟩]
      = .error Err.parseError :=
  polygon_parse_strictness sampleCells sampleAdata sampleImg sampleAlign
    [⟨"LineString", "roi", [[(0, 0), (1, 0)]]⟩]
    ⟨"LineString", "roi", [[(0, 0), (1, 0)]]⟩
    (List.mem_singleton.mpr rfl) (Or.inl (by decide))
    (ObsmVal.cats ["A", "B"]) rfl
    (ObsmVal.nums [[0, 0], [1, 1], [2, 2]]) rfl
    (ObsmVal.nums [[1], [2], [3/2]]) rfl

/-- C7: if the Table and the Points layer named by its `mapping_info`
disagree on row count, dataset construction fails with a
`ConsistencyError`; and whenever construction succeeds, the dataset holds
the table and points layers exactly as passed — nothing is truncated or
padded. -/
theorem consistency_mismatch_fails (table : AnnDataObj)
    (points : List (String × AnnDataObj)) (images : List (String × List (List ℚ)))
    (imt : List (String × Transform))
    (polys : List (String × List (String × List (ℚ × ℚ))))
    (mi : MappingInfo) (region : AnnDataObj)
    (hmi : table.uns_mapping_info = some mi)
    (hreg : assocLookup points mi.regions = some region) :
    (table.X.length ≠ region.X.length →
        mkSpatialData table points images imt polys = .error Err.consistencyError) ∧
    (∀ D, mkSpatialData table points images imt polys = .ok D →
        D.table = table ∧ D.points = points) := by
  constructor
  · intro hne
    simp only [mkSpatialData, hmi, hreg, if_neg hne]
  · intro D hD
    simp only [mkSpatialData, hmi, hreg] at hD
    by_cases hlen : table.X.length = region.X.length
    · rw [if_pos hlen] at hD
      by_cases himg : imt.all (fun kv => (assocLookup images kv.1).isSome)
      · rw [if_pos himg] at hD
        cases hD
        exact ⟨rfl, rfl⟩
      · rw [if_neg himg] at hD
        cases hD
    · rw [if_neg hlen] at hD
      cases hD

/-- C7 witness: a 3-row table against a 2-row `cells` layer fails with a
`ConsistencyError`, while the matched sample construction keeps both
sides untouched. -/
theorem consistency_mismatch_fails_witness :
    ((mkExpression sampleCells).X.length
        ≠ (mkRegions (ObsmVal.nums [[0, 0], [1, 1]]) (ObsmVal.nums [[1], [2]])).X.length →
      mkSpatialData (mkExpression sampleCells)
          [("cells", mkRegions (ObsmVal.nums [[0, 0], [1, 1]]) (ObsmVal.nums [[1], [2]]))]
          [] [] []
        = .error Err.consistencyError) ∧
    (∀ D, mkSpatialData (mkExpression sampleCells)
          [("cells", mkRegions (ObsmVal.nums [[0, 0], [1, 1]]) (ObsmVal.nums [[1], [2]]))]
          [] [] []
        = .ok D →
        D.table = mkExpression sampleCells ∧
        D.points
          = [("cells", mkRegions (ObsmVal.nums [[0, 0], [1, 1]]) (ObsmVal.nums [[1], [2]]))]) :=
  consistency_mismatch_fails (mkExpression sampleCells)
    [("cells", mkRegions (ObsmVal.nums [[0, 0], [1, 1]]) (ObsmVal.nums [[1], [2]]))]
    [] [] [] ⟨"cells", "regions_id", "cell_id"⟩
    (mkRegions (ObsmVal.nums [[0, 0], [1, 1]]) (ObsmVal.nums [[1], [2]])) rfl rfl

theorem mkExpression_uns (cells : AnnDataObj) :
    (mkExpression cells).uns_mapping_info = some ⟨"cells", "regions_id", "cell_id"⟩ := rfl

/-- C2: in every successfully assembled dataset, the Table and the Points
layer named by its `mapping_info` (`"cells"`) have the same number of
rows, and both the Table's and the layer's `cell_id` columns are exactly
the dense sequence `range n`, positionally aligned. -/
theorem table_region_alignment (cells adata : AnnDataObj) (img : List (List ℚ))
    (j : AlignRecord) (geo : List GeoFeature) (D : SpatialDataset)
    (hrun : buildDataset cells adata img j geo = .ok D) :
    D.table.uns_mapping_info = some ⟨"cells", "regions_id", "cell_id"⟩ ∧
    ∃ region, assocLookup D.points "cells" = some region ∧
      D.table.X.length = region.X.length ∧
      assocLookup D.table.obs "cell_id"
        = some (ObsCol.nats (List.range D.table.X.length)) ∧
      assocLookup region.obs "cell_id"
        = some (ObsCol.nats (List.range region.X.length)) := by
  unfold buildDataset at hrun
  rcases hct : assocLookup adata.obsm "cell_type" with _ | ct
  · rw [hct] at hrun; simp at hrun
  · rw [hct] at hrun
    rcases hsp : assocLookup cells.obsm "spatial" with _ | sp
    · rw [hsp] at hrun; simp at hrun
    · rw [hsp] at hrun
      rcases hrr : assocLookup cells.obsm "region_radius" with _ | rr
      · rw [hrr] at hrun; simp at hrun
      · rw [hrr] at hrun
        rcases hgeo : anndata_from_geojson geo with e | polys
        · rw [hgeo] at hrun; simp at hrun
        · rw [hgeo] at hrun
          simp only [mkSpatialData, mkExpression_uns, assocLookup, reduceIte,
            List.all_cons, List.all_nil, Option.isSome_some, Bool.and_true] at hrun
          by_cases hlen : (mkExpression cells).X.length = (mkRegions sp rr).X.length
          · rw [if_pos hlen] at hrun
            cases hrun
            refine ⟨rfl, mkRegions sp rr, ?_, hlen, ?_, ?_⟩
            · simp [assocLookup]
            · rw [mkExpression_obs_cell_id, mkExpression_X]
            · simp [mkRegions, assocLookup]
          · rw [if_neg hlen] at hrun
            cases hrun

/-- The dataset the pipeline assembles from the sample inputs. -/
def sampleBuilt : SpatialDataset :=
  { table := mkExpression sampleCells
    points :=
      [("cells", mkRegions (ObsmVal.nums [[0, 0], [1, 1], [2, 2]])
          (ObsmVal.nums [[1], [2], [3/2]])),
       ("single_molecule", mkSingleMolecule sampleAdata (ObsmVal.cats ["A", "B"]))]
    images := [("rasterized", sampleImg)]
    images_transform := [("rasterized", composed sampleAlign)]
    polygons := [("anatomical", [("roi", [(0, 0), (1, 0), (1, 1)])])] }

/-- C2 witness: the sample run assembles successfully and satisfies the
alignment invariant. -/
theorem table_region_alignment_witness :
    sampleBuilt.table.uns_mapping_info = some ⟨"cells", "regions_id", "cell_id"⟩ ∧
    ∃ region, assocLookup sampleBuilt.points "cells" = some region ∧
      sampleBuilt.table.X.length = region.X.length ∧
      assocLookup sampleBuilt.table.obs "cell_id"
        = some (ObsCol.nats (List.range sampleBuilt.table.X.length)) ∧
      assocLookup region.obs "cell_id"
        = some (ObsCol.nats (List.range region.X.length)) :=
  table_region_alignment sampleCells sampleAdata sampleImg sampleAlign sampleGeo
    sampleBuilt rfl

/-! ### Mutation model for `expression = cells.copy()` (`to_zarr.py` lines 34-39)

The script mutates `expression` in place (`del`, attribute assignment)
after taking a *copy* of `cells`; to state that `cells` itself is left
unchanged, the objects are placed on an explicit heap and `copy`
allocates a fresh cell, exactly as python object semantics does. -/

/-- Read the object at address `a`. -/
def heapGet (h : List AnnDataObj) (a : Nat) : AnnDataObj :=
  h.getD a default

/-- Mutate the object at address `a` in place. -/
def heapUpd (h : List AnnDataObj) (a : Nat) (f : AnnDataObj → AnnDataObj) :
    List AnnDataObj :=
  h.set a (f (heapGet h a))

/-- Lines 34-39 as heap steps: `expression = cells.copy()` allocates a
fresh object at address `h0.length`; the two `del`s, the `uns`
assignment and the two `obs` assignments then mutate it in place.
Returns the final heap and the address of `expression`. -/
def expressionSteps (h0 : List AnnDataObj) (ca : Nat) : List AnnDataObj × Nat :=
  (heapUpd (heapUpd (heapUpd (heapUpd (heapUpd (h0 ++ [heapGet h0 ca])
        h0.length (delObsmMut "region_radius"))
        h0.length (delObsmMut "spatial"))
        h0.length (setUnsMut ⟨"cells", "regions_id", "cell_id"⟩))
        h0.length setObsRegionsIdMut)
        h0.length setObsCellIdMut,
   h0.length)

theorem heapGet_heapUpd_ne (h : List AnnDataObj) (a b : Nat)
    (f : AnnDataObj → AnnDataObj) (hne : b ≠ a) :
    heapGet (heapUpd h b f) a = heapGet h a := by
  simp [heapGet, heapUpd, List.getD, List.getElem?_set_ne hne]

theorem heapGet_heapUpd_self (h : List AnnDataObj) (a : Nat)
    (f : AnnDataObj → AnnDataObj) (ha : a < h.length) :
    heapGet (heapUpd h a f) a = f (heapGet h a) := by
  simp [heapGet, heapUpd, List.getD, List.getElem?_set_self ha]

theorem length_heapUpd (h : List AnnDataObj) (a : Nat) (f : AnnDataObj → AnnDataObj) :
    (heapUpd h a f).length = h.length := by
  simp [heapUpd]

/-- C10: the in-place construction of the Table mutates only the fresh
copy: the original `cells` object is bitwise unchanged afterwards (its
`spatial` and `region_radius` obsm slots are still present), the copy
ends up exactly as `mkExpression` describes, and the `cells` Points layer
subsequently built from the original's slots is the same layer that
would have been built before the Table construction. -/
theorem table_construction_frame (h0 : List AnnDataObj) (ca : Nat) (sp rr : ObsmVal)
    (hca : ca < h0.length)
    (hsp : assocLookup (heapGet h0 ca).obsm "spatial" = some sp)
    (hrr : assocLookup (heapGet h0 ca).obsm "region_radius" = some rr) :
    heapGet (expressionSteps h0 ca).1 ca = heapGet h0 ca ∧
    assocLookup (heapGet (expressionSteps h0 ca).1 ca).obsm "spatial" = some sp ∧
    assocLookup (heapGet (expressionSteps h0 ca).1 ca).obsm "region_radius" = some rr ∧
    heapGet (expressionSteps h0 ca).1 (expressionSteps h0 ca).2
      = mkExpression (heapGet h0 ca) ∧
    (∀ sp' rr',
        assocLookup (heapGet (expressionSteps h0 ca).1 ca).obsm "spatial" = some sp' →
        assocLookup (heapGet (expressionSteps h0 ca).1 ca).obsm "region_radius" = some rr' →
        mkRegions sp' rr' = mkRegions sp rr) := by
  have hne : h0.length ≠ ca := Nat.ne_of_gt hca
  have hframe : heapGet (expressionSteps h0 ca).1 ca = heapGet h0 ca := by
    simp only [expressionSteps]
    rw [heapGet_heapUpd_ne _ _ _ _ hne, heapGet_heapUpd_ne _ _ _ _ hne,
      heapGet_heapUpd_ne _ _ _ _ hne, heapGet_heapUpd_ne _ _ _ _ hne,
      heapGet_heapUpd_ne _ _ _ _ hne]
    simp [heapGet, List.getD, List.getElem?_append_left hca]
  have hcopy : heapGet (expressionSteps h0 ca).1 (expressionSteps h0 ca).2
      = mkExpression (heapGet h0 ca) := by
    simp only [expressionSteps]
    have hlt : h0.length < (h0 ++ [heapGet h0 ca]).length := by
      simp
    rw [heapGet_heapUpd_self _ _ _ (by simpa [length_heapUpd] using hlt),
      heapGet_heapUpd_self _ _ _ (by simpa [length_heapUpd] using hlt),
      heapGet_heapUpd_self _ _ _ (by simpa [length_heapUpd] using hlt),
      heapGet_heapUpd_self _ _ _ (by simpa [length_heapUpd] using hlt),
      heapGet_heapUpd_self _ _ _ hlt]
    have hc : heapGet (h0 ++ [heapGet h0 ca]) h0.length = heapGet h0 ca := by
      simp [heapGet, List.getD, List.getElem?_concat_length]
    rw [hc]
    rfl
  refine ⟨hframe, by rw [hframe]; exact hsp, by rw [hframe]; exact hrr, hcopy, ?_⟩
  intro sp' rr' hsp' hrr'
  rw [hframe] at hsp' hrr'
  rw [hsp] at hsp'
  rw [hrr] at hrr'
  cases hsp'
  cases hrr'
  rfl

/-- C10 witness: a one-object heap holding the sample 3-cell table. -/
theorem table_construction_frame_witness :
    heapGet (expressionSteps [sampleCells] 0).1 0 = heapGet [sampleCells] 0 ∧
    assocLookup (heapGet (expressionSteps [sampleCells] 0).1 0).obsm "spatial"
      = some (ObsmVal.nums [[0, 0], [1, 1], [2, 2]]) ∧
    assocLookup (heapGet (expressionSteps [sampleCells] 0).1 0).obsm "region_radius"
      = some (ObsmVal.nums [[1], [2], [3/2]]) ∧
    heapGet (expressionSteps [sampleCells] 0).1 (expressionSteps [sampleCells] 0).2
      = mkExpression (heapGet [sampleCells] 0) ∧
    (∀ sp' rr',
        assocLookup (heapGet (expressionSteps [sampleCells] 0).1 0).obsm "spatial"
          = some sp' →
        assocLookup (heapGet (expressionSteps [sampleCells] 0).1 0).obsm "region_radius"
          = some rr' →
        mkRegions sp' rr'
          = mkRegions (ObsmVal.nums [[0, 0], [1, 1], [2, 2]])
              (ObsmVal.nums [[1], [2], [3/2]])) :=
  table_construction_frame [sampleCells] 0 _ _ (by decide) rfl rfl

end Merfish
